import Mathlib

/-!
# Verification of the engagement state machine of a social-media application

This file gives a shallow embedding of the server actions of the
repository (posts, likes, comments, follows, notifications) and of the
optimistic client-side widget handlers, and proves or refutes the stated
behavioural claims about them.

Modelling conventions:
* Record ids and Clerk user ids are Lean `String`s (JS strings used only
  for equality tests).
* Text content (post/comment bodies) is `List Char`, so that the
  semantics of JavaScript `String.prototype.trim` and `.length` can be
  reasoned about directly.
* The relational store (Prisma + database) is an explicit `Store` value.
  Each `prisma.*` call is a function `Store → Except String _`.  The
  field `dbError` models a failing persistence layer: when it is
  `some m`, every store access rejects with message `m`; when it is
  `none`, every store access resolves.
* `auth()` is modelled by an `Option String` session argument: `some u`
  means Clerk authenticated the caller as `u`, `none` means no session.
  Clerk's `currentUser()` returns a user object exactly when `auth()`
  returns an id, so it is modelled from the same session value.
* A thrown JS `Error` is `Except.error msg`; the `try/catch` wrapper at
  the top of every action that rethrows
  `new Error("Failed to X: " + error.message)` is `wrapError "Failed to X"`.
* `revalidatePath` calls only invalidate framework caches; they do not
  touch the store and are not modelled.
-/

deriving instance DecidableEq for Except

/-- The result shape `{success:false, message}` / `{success:true, payload}`
returned by the engagement mutations. -/
inductive OpResult (α : Type) where
  /-- `{success:false, message}`: the idempotent no-op marker. -/
  | noop (message : String)
  /-- `{success:true, ...}` with the created/returned payload. -/
  | ok (payload : α)
deriving Repr, DecidableEq

/-- A user row.  `clerkId` is the external identity-provider id; the
actions compare it with the session id. -/
structure User where
  id : String
  clerkId : String
  username : String
deriving Repr, DecidableEq

/-- A post row.  `createPost` stores the author's Clerk user id in
`authorId`, so the `include: { author: { select: { clerkId } } }`
projection used by the actions is exactly `authorId`. -/
structure Post where
  id : String
  authorId : String
  content : List Char
  image : Option String
  createdAt : Nat
deriving Repr, DecidableEq

/-- A like row; the composite key is `(userId, postId)`. -/
structure Like where
  userId : String
  postId : String
  createdAt : Nat
deriving Repr, DecidableEq

/-- A follows row; the composite key is `(followerId, followingId)`. -/
structure Follows where
  followerId : String
  followingId : String
  createdAt : Nat
deriving Repr, DecidableEq

/-- A comment row. -/
structure Comment where
  id : String
  postId : String
  authorId : String
  content : List Char
  createdAt : Nat
deriving Repr, DecidableEq

/-- The notification type enum. -/
inductive NotificationType where
  | LIKE
  | COMMENT
  | FOLLOW
deriving Repr, DecidableEq

/-- A notification row.  `userId` is the recipient, `creatorId` the
triggering actor; `read` defaults to `false` on creation. -/
structure Notification where
  id : String
  userId : String
  creatorId : String
  type : NotificationType
  postId : Option String
  commentId : Option String
  read : Bool
  createdAt : Nat
deriving Repr, DecidableEq

/-- The relational store together with the failure oracle for the
persistence layer, an id generator and a clock. -/
structure Store where
  users : List User
  posts : List Post
  likes : List Like
  follows : List Follows
  comments : List Comment
  notifications : List Notification
  /-- Generator for fresh row ids (Prisma cuid). -/
  nextId : Nat
  /-- Clock supplying `createdAt` timestamps. -/
  now : Nat
  /-- When `some m`, every store access rejects with message `m`
  (the persistence layer is failing); when `none`, accesses resolve. -/
  dbError : Option String
deriving Repr, DecidableEq

namespace Store

/-- Run a read-only store access: resolves with the given value unless
the persistence layer is failing. -/
def run (s : Store) (a : α) : Except String α :=
  match s.dbError with
  | some m => .error m
  | none => .ok a

/-- `prisma.post.findUnique({where:{id}})` (with the author's `clerkId`
projected, which is `Post.authorId`). -/
def postFindUnique (s : Store) (postId : String) : Except String (Option Post) :=
  s.run (s.posts.find? fun p => p.id == postId)

/-- `prisma.user.findUnique({where:{clerkId}})`. -/
def userFindUniqueByClerkId (s : Store) (clerkId : String) : Except String (Option User) :=
  s.run (s.users.find? fun u => u.clerkId == clerkId)

/-- `prisma.like.findUnique({where:{userId_postId:{userId, postId}}})`. -/
def likeFindUnique (s : Store) (userId postId : String) : Except String (Option Like) :=
  s.run (s.likes.find? fun l => l.userId == userId && l.postId == postId)

/-- `prisma.like.create({data:{userId, postId}})`. -/
def likeCreate (s : Store) (userId postId : String) : Except String (Like × Store) :=
  s.run
    (let like : Like := { userId := userId, postId := postId, createdAt := s.now }
     (like, { s with likes := s.likes ++ [like] }))

/-- `prisma.like.delete({where:{userId_postId:{userId, postId}}})`:
rejects when the row does not exist, otherwise removes it. -/
def likeDelete (s : Store) (userId postId : String) : Except String (Like × Store) :=
  match s.dbError with
  | some m => .error m
  | none =>
    match s.likes.find? (fun l => l.userId == userId && l.postId == postId) with
    | none => .error "Record to delete does not exist."
    | some l =>
      .ok (l, { s with likes := s.likes.filter fun l => !(l.userId == userId && l.postId == postId) })

/-- `prisma.follows.findUnique({where:{followerId_followingId:{...}}})`. -/
def followsFindUnique (s : Store) (followerId followingId : String) :
    Except String (Option Follows) :=
  s.run (s.follows.find? fun f => f.followerId == followerId && f.followingId == followingId)

/-- `prisma.follows.create({data:{followerId, followingId}})`. -/
def followsCreate (s : Store) (followerId followingId : String) :
    Except String (Follows × Store) :=
  s.run
    (let f : Follows := { followerId := followerId, followingId := followingId, createdAt := s.now }
     (f, { s with follows := s.follows ++ [f] }))

/-- `prisma.follows.delete({where:{followerId_followingId:{...}}})`:
rejects when the row does not exist, otherwise removes it. -/
def followsDelete (s : Store) (followerId followingId : String) :
    Except String (Follows × Store) :=
  match s.dbError with
  | some m => .error m
  | none =>
    match s.follows.find? (fun f => f.followerId == followerId && f.followingId == followingId) with
    | none => .error "Record to delete does not exist."
    | some f =>
      .ok (f, { s with follows :=
        s.follows.filter fun f => !(f.followerId == followerId && f.followingId == followingId) })

/-- `prisma.notification.findFirst({where:{userId, creatorId, type, postId}})`.
Note: the filter does **not** constrain the `read` flag. -/
def notificationFindFirst (s : Store) (userId creatorId : String) (type : NotificationType)
    (postId : Option String) : Except String (Option Notification) :=
  s.run (s.notifications.find? fun n =>
    n.userId == userId && n.creatorId == creatorId && n.type == type && n.postId == postId)

/-- `prisma.notification.create({data:{userId, creatorId, type, postId?, commentId?}})`;
`read` defaults to `false`. -/
def notificationCreate (s : Store) (userId creatorId : String) (type : NotificationType)
    (postId commentId : Option String) : Except String (Notification × Store) :=
  s.run
    (let n : Notification :=
      { id := toString s.nextId, userId := userId, creatorId := creatorId, type := type,
        postId := postId, commentId := commentId, read := false, createdAt := s.now }
     (n, { s with notifications := s.notifications ++ [n], nextId := s.nextId + 1 }))

/-- `prisma.notification.findUnique({where:{id}})`. -/
def notificationFindUnique (s : Store) (notificationId : String) :
    Except String (Option Notification) :=
  s.run (s.notifications.find? fun n => n.id == notificationId)

/-- `prisma.notification.update({where:{id}, data:{read:true}})`. -/
def notificationUpdateRead (s : Store) (notificationId : String) :
    Except String (Notification × Store) :=
  match s.dbError with
  | some m => .error m
  | none =>
    match s.notifications.find? (fun n => n.id == notificationId) with
    | none => .error "Record to update not found."
    | some n =>
      .ok ({ n with read := true },
           { s with notifications :=
              s.notifications.map fun m => if m.id == notificationId then { m with read := true } else m })

/-- `prisma.notification.count({where:{userId, read:false}})`. -/
def notificationCountUnread (s : Store) (userId : String) : Except String Nat :=
  s.run ((s.notifications.filter fun n => n.userId == userId && !n.read).length)

/-- `prisma.post.create({data:{content, image, authorId}})`. -/
def postCreate (s : Store) (authorId : String) (content : List Char) (image : Option String) :
    Except String (Post × Store) :=
  s.run
    (let p : Post :=
      { id := toString s.nextId, authorId := authorId, content := content, image := image,
        createdAt := s.now }
     (p, { s with posts := s.posts ++ [p], nextId := s.nextId + 1 }))

/-- `prisma.comment.create({data:{content, postId, authorId}})`. -/
def commentCreate (s : Store) (authorId postId : String) (content : List Char) :
    Except String (Comment × Store) :=
  s.run
    (let c : Comment :=
      { id := toString s.nextId, postId := postId, authorId := authorId, content := content,
        createdAt := s.now }
     (c, { s with comments := s.comments ++ [c], nextId := s.nextId + 1 }))

/-- `prisma.comment.findUnique({where:{id}})` (with author `clerkId` and
post id projected, which are `Comment.authorId` / `Comment.postId`). -/
def commentFindUnique (s : Store) (commentId : String) : Except String (Option Comment) :=
  s.run (s.comments.find? fun c => c.id == commentId)

/-- `prisma.comment.delete({where:{id}})`. -/
def commentDelete (s : Store) (commentId : String) : Except String Store :=
  s.run { s with comments := s.comments.filter fun c => !(c.id == commentId) }

/-- `prisma.post.delete({where:{id}})`: the schema cascade removes the
post's comments and likes together with the post. -/
def postDelete (s : Store) (postId : String) : Except String Store :=
  s.run { s with
    posts := s.posts.filter fun p => !(p.id == postId),
    comments := s.comments.filter fun c => !(c.postId == postId),
    likes := s.likes.filter fun l => !(l.postId == postId) }

/-- `prisma.post.count()`. -/
def postCount (s : Store) : Except String Nat :=
  s.run s.posts.length

end Store

/-- The `catch (error) { throw new Error("<prefix>: " + error.message) }`
wrapper at the top of every server action. -/
def wrapError (pre : String) (x : Except String α) : Except String α :=
  match x with
  | .ok a => .ok a
  | .error m => .error (pre ++ ": " ++ m)

/-- JavaScript `String.prototype.trim`: strip leading and trailing
whitespace. -/
def jsTrim (cs : List Char) : List Char :=
  ((cs.dropWhile Char.isWhitespace).reverse.dropWhile Char.isWhitespace).reverse

/-!
## Server actions (`src/actions/*.action.ts`)
-/

/-- `likePost(postId)` from `like.action.ts`. -/
def likePost (session : Option String) (postId : String) (s : Store) :
    Except String (OpResult Like × Store) :=
  wrapError "Failed to like post"
    (match session with
     | none => .error "Unauthorized: Must be logged in to like"
     | some userId =>
       match s.postFindUnique postId with
       | .error m => .error m
       | .ok none => .error "Post not found"
       | .ok (some post) =>
         match s.likeFindUnique userId postId with
         | .error m => .error m
         | .ok (some _) => .ok (.noop "Post already liked", s)
         | .ok none =>
           match s.likeCreate userId postId with
           | .error m => .error m
           | .ok (like, s1) =>
             if post.authorId != userId then
               match s1.notificationFindFirst post.authorId userId .LIKE (some postId) with
               | .error m => .error m
               | .ok (some _) => .ok (.ok like, s1)
               | .ok none =>
                 match s1.notificationCreate post.authorId userId .LIKE (some postId) none with
                 | .error m => .error m
                 | .ok (_, s2) => .ok (.ok like, s2)
             else .ok (.ok like, s1))

/-- `unlikePost(postId)` from `like.action.ts`.  The
`prisma.like.delete(...).catch(() => null)` converts **any** rejection of
the delete call into `null`. -/
def unlikePost (session : Option String) (postId : String) (s : Store) :
    Except String (OpResult String × Store) :=
  wrapError "Failed to unlike post"
    (match session with
     | none => .error "Unauthorized: Must be logged in"
     | some userId =>
       match s.likeDelete userId postId with
       | .error _ => .ok (.noop "Post not liked", s)
       | .ok (_, s1) => .ok (.ok "Post unliked", s1))

/-- `hasUserLikedPost(postId)` from `like.action.ts`: returns `false` for
unauthenticated callers and `false` on any store error. -/
def hasUserLikedPost (session : Option String) (postId : String) (s : Store) : Bool :=
  match session with
  | none => false
  | some userId =>
    match s.likeFindUnique userId postId with
    | .error _ => false
    | .ok like => like.isSome

/-- `followUser(followingId)` from `follow.action.ts`. -/
def followUser (session : Option String) (followingId : String) (s : Store) :
    Except String (OpResult Follows × Store) :=
  wrapError "Failed to follow user"
    (match session with
     | none => .error "Unauthorized: Must be logged in to follow"
     | some userId =>
       if userId == followingId then .error "You cannot follow yourself"
       else
         match s.userFindUniqueByClerkId followingId with
         | .error m => .error m
         | .ok none => .error "User not found"
         | .ok (some _) =>
           match s.followsFindUnique userId followingId with
           | .error m => .error m
           | .ok (some _) => .ok (.noop "Already following user", s)
           | .ok none =>
             match s.followsCreate userId followingId with
             | .error m => .error m
             | .ok (follow, s1) =>
               match s1.notificationCreate followingId userId .FOLLOW none none with
               | .error m => .error m
               | .ok (_, s2) => .ok (.ok follow, s2))

/-- `unfollowUser(followingId)` from `follow.action.ts`.  As in
`unlikePost`, the `.catch(() => null)` converts any rejection of the
delete call into `null`; the subsequent user lookup (used only for cache
invalidation) stays modelled as a store access. -/
def unfollowUser (session : Option String) (followingId : String) (s : Store) :
    Except String (OpResult String × Store) :=
  wrapError "Failed to unfollow user"
    (match session with
     | none => .error "Unauthorized: Must be logged in"
     | some userId =>
       match s.followsDelete userId followingId with
       | .error _ => .ok (.noop "Not following user", s)
       | .ok (_, s1) =>
         match s1.userFindUniqueByClerkId followingId with
         | .error m => .error m
         | .ok _ => .ok (.ok "User unfollowed", s1))

/-- `isFollowing(targetUserId)` from `follow.action.ts`: `false` for
unauthenticated callers and `false` on any store error. -/
def isFollowing (session : Option String) (targetUserId : String) (s : Store) : Bool :=
  match session with
  | none => false
  | some userId =>
    match s.followsFindUnique userId targetUserId with
    | .error _ => false
    | .ok follow => follow.isSome

/-- `createPost(content, imageUrl)` from `post.action.ts`.  Clerk's
`currentUser()` yields a user object exactly when `auth()` yields an id,
so both checks are modelled from the same session value. -/
def createPost (session : Option String) (content : List Char) (imageUrl : Option String)
    (s : Store) : Except String (Post × Store) :=
  wrapError "Failed to create post"
    (match session with
     | none => .error "Unauthorized: Must be logged in to create post"
     | some userId =>
       match session with
       | none => .error "User not found"
       | some _ =>
         if (jsTrim content).isEmpty then .error "Post content cannot be empty"
         else if content.length > 280 then .error "Post must be 280 characters or less"
         else
           match s.postCreate userId (jsTrim content) imageUrl with
           | .error m => .error m
           | .ok (post, s1) => .ok (post, s1))

/-- The `{items, total, page, limit, hasMore}` record returned by
`getFeedPosts`. -/
structure FeedPage where
  posts : List Post
  total : Nat
  page : Nat
  limit : Nat
  hasMore : Bool
deriving Repr, DecidableEq

/-- The descending-creation-time relation of `orderBy: { createdAt: "desc" }`. -/
def postCreatedDesc (p q : Post) : Prop := q.createdAt ≤ p.createdAt

instance : DecidableRel postCreatedDesc := fun p q => Nat.decLe q.createdAt p.createdAt

instance : IsTotal Post postCreatedDesc :=
  ⟨fun a b => by unfold postCreatedDesc; exact Nat.le_total _ _⟩

instance : IsTrans Post postCreatedDesc :=
  ⟨fun _ _ _ h1 h2 => le_trans h2 h1⟩

/-- `orderBy: { createdAt: "desc" }` on posts. -/
def sortPostsByCreatedAtDesc (ps : List Post) : List Post :=
  ps.insertionSort postCreatedDesc

/-- `prisma.post.findMany({orderBy:{createdAt:"desc"}, take: limit, skip: offset, ...})`. -/
def Store.postFindManyFeed (s : Store) (take skip : Nat) : Except String (List Post) :=
  s.run (((sortPostsByCreatedAtDesc s.posts).drop skip).take take)

/-- `getFeedPosts(page, limit)` from `post.action.ts`. -/
def getFeedPosts (page : Nat := 1) (limit : Nat := 10) (s : Store) :
    Except String (FeedPage × Store) :=
  wrapError "Failed to fetch feed"
    (let offset := (page - 1) * limit
     match s.postFindManyFeed limit offset with
     | .error m => .error m
     | .ok posts =>
       match s.postCount with
       | .error m => .error m
       | .ok total =>
         .ok ({ posts := posts, total := total, page := page, limit := limit,
                hasMore := decide (offset + limit < total) }, s))

/-- `deletePost(postId)` from `post.action.ts`. -/
def deletePost (session : Option String) (postId : String) (s : Store) :
    Except String (OpResult String × Store) :=
  wrapError "Failed to delete post"
    (match session with
     | none => .error "Unauthorized: Must be logged in"
     | some userId =>
       match s.postFindUnique postId with
       | .error m => .error m
       | .ok none => .error "Post not found"
       | .ok (some post) =>
         if post.authorId != userId then
           .error "Unauthorized: You can only delete your own posts"
         else
           match s.postDelete postId with
           | .error m => .error m
           | .ok s1 => .ok (.ok "Post deleted successfully", s1))

/-- `createComment(postId, content)` from `comment.action.ts`. -/
def createComment (session : Option String) (postId : String) (content : List Char)
    (s : Store) : Except String (Comment × Store) :=
  wrapError "Failed to create comment"
    (match session with
     | none => .error "Unauthorized: Must be logged in to comment"
     | some userId =>
       if (jsTrim content).isEmpty then .error "Comment cannot be empty"
       else
         match s.postFindUnique postId with
         | .error m => .error m
         | .ok none => .error "Post not found"
         | .ok (some post) =>
           match s.commentCreate userId postId (jsTrim content) with
           | .error m => .error m
           | .ok (comment, s1) =>
             if post.authorId != userId then
               match s1.notificationCreate post.authorId userId .COMMENT (some postId)
                   (some comment.id) with
               | .error m => .error m
               | .ok (_, s2) => .ok (comment, s2)
             else .ok (comment, s1))

/-- `deleteComment(commentId)` from `comment.action.ts`. -/
def deleteComment (session : Option String) (commentId : String) (s : Store) :
    Except String (OpResult String × Store) :=
  wrapError "Failed to delete comment"
    (match session with
     | none => .error "Unauthorized: Must be logged in"
     | some userId =>
       match s.commentFindUnique commentId with
       | .error m => .error m
       | .ok none => .error "Comment not found"
       | .ok (some comment) =>
         if comment.authorId != userId then
           .error "Unauthorized: You can only delete your own comments"
         else
           match s.commentDelete commentId with
           | .error m => .error m
           | .ok s1 => .ok (.ok "Comment deleted successfully", s1))

/-- `markNotificationAsRead(notificationId)` from `notification.action.ts`. -/
def markNotificationAsRead (session : Option String) (notificationId : String) (s : Store) :
    Except String (Notification × Store) :=
  wrapError "Failed to mark notification"
    (match session with
     | none => .error "Unauthorized: Must be logged in"
     | some userId =>
       match s.notificationFindUnique notificationId with
       | .error m => .error m
       | .ok none => .error "Notification not found"
       | .ok (some notification) =>
         if notification.userId != userId then
           .error "Unauthorized: You can only update your own notifications"
         else
           match s.notificationUpdateRead notificationId with
           | .error m => .error m
           | .ok (updated, s1) => .ok (updated, s1))

/-- `getUnreadNotificationCount()` from `notification.action.ts`: `0` for
unauthenticated callers and `0` on any store error. -/
def getUnreadNotificationCount (session : Option String) (s : Store) : Nat :=
  match session with
  | none => 0
  | some userId =>
    match s.notificationCountUnread userId with
    | .error _ => 0
    | .ok count => count

/-!
## Optimistic client widgets (`Post.tsx`, `FollowButton.tsx`, `CommentsSection.tsx`)

Each handler is embedded as a pure function from the widget's local state
and the outcome of the awaited server action to the state left behind by
the handler, together with how many mutation calls the handler issued and
which error message (if any) it put into user-visible state.  `console.error`
writes to the developer console, not to the UI, so it does not count as a
surfaced error.
-/

/-- Outcome of the awaited server-action call inside a handler. -/
inductive MutationOutcome where
  | success
  | failure (message : String)
deriving Repr, DecidableEq

/-- What a handler invocation left behind: the widget state, the number
of mutation calls it issued, and the error message (if any) written into
user-visible state. -/
structure HandlerRun (σ : Type) where
  final : σ
  mutationCalls : Nat
  surfacedError : Option String
deriving Repr, DecidableEq

/-- Local state of the like button in `Post.tsx`:
`useState(initialIsLiked)` and `useState(post._count.likes)`.
`likeCount` is a JS number, modelled as `Int`. -/
structure LikeWidget where
  isLiked : Bool
  likeCount : Int
deriving Repr, DecidableEq

/-- `handleLike` from `Post.tsx`: saves the previous state, applies the
optimistic toggle, awaits `likePost`/`unlikePost`, and on error restores
the saved state; the catch branch only calls `console.error`
(`// TODO: Show error toast`). -/
def handleLike (user : Option String) (st : LikeWidget) (outcome : MutationOutcome) :
    HandlerRun LikeWidget :=
  match user with
  | none => { final := st, mutationCalls := 0, surfacedError := none }
  | some _ =>
    let optimistic : LikeWidget :=
      { isLiked := !st.isLiked,
        likeCount := if !st.isLiked then st.likeCount + 1 else st.likeCount - 1 }
    match outcome with
    | .success => { final := optimistic, mutationCalls := 1, surfacedError := none }
    | .failure _ => { final := st, mutationCalls := 1, surfacedError := none }

/-- `handleFollowToggle` from `FollowButton.tsx`: saves
`previousFollowing`, optimistically toggles, awaits
`followUser`/`unfollowUser`, and on error restores the saved value; the
catch branch only calls `console.error` (`// TODO: Show error toast`). -/
def handleFollowToggle (st : Bool) (outcome : MutationOutcome) : HandlerRun Bool :=
  let previousFollowing := st
  let _optimistic := !previousFollowing
  match outcome with
  | .success => { final := !previousFollowing, mutationCalls := 1, surfacedError := none }
  | .failure _ => { final := previousFollowing, mutationCalls := 1, surfacedError := none }

/-- A displayed comment in `CommentsSection.tsx` (only the fields the
handler manipulates). -/
structure CommentItem where
  id : String
  content : List Char
deriving Repr, DecidableEq

/-- Local state of the comment composer in `CommentsSection.tsx`. -/
structure CommentComposer where
  comments : List CommentItem
  commentText : List Char
  error : Option String
deriving Repr, DecidableEq

/-- `handleSubmitComment` from `CommentsSection.tsx`: prepends an
optimistic comment with a fresh temporary id and clears the input, awaits
`createComment`, replaces the optimistic comment on success, and on
failure filters it back out and writes the error message into the
`error` state (which the component renders). -/
def handleSubmitComment (user : Option String) (st : CommentComposer) (tempId : String)
    (result : Except String CommentItem) : HandlerRun CommentComposer :=
  match user with
  | none =>
    { final := { st with error := some "You must be signed in to comment" },
      mutationCalls := 0, surfacedError := some "You must be signed in to comment" }
  | some _ =>
    if (jsTrim st.commentText).isEmpty then
      { final := { st with error := some "Comment cannot be empty" },
        mutationCalls := 0, surfacedError := some "Comment cannot be empty" }
    else
      let optimisticComment : CommentItem := { id := tempId, content := st.commentText }
      match result with
      | .ok newComment =>
        { final :=
            { comments := (optimisticComment :: st.comments).map fun c =>
                if c.id == tempId then newComment else c,
              commentText := [], error := none },
          mutationCalls := 1, surfacedError := none }
      | .error msg =>
        { final :=
            { comments := (optimisticComment :: st.comments).filter fun c => c.id != tempId,
              commentText := [], error := some msg },
          mutationCalls := 1, surfacedError := some msg }

/-!
## Concrete fixtures
-/

/-- Two users: `"a"` (authored post `"p1"`) and `"u"`.  `"u"` already
likes `"p1"` and already follows `"a"`; one unread FOLLOW notification
for `"a"` from `"u"` exists. -/
def engagedStore : Store :=
  { users := [{ id := "1", clerkId := "a", username := "alice" },
              { id := "2", clerkId := "u", username := "uma" }],
    posts := [{ id := "p1", authorId := "a", content := ['h', 'i'], image := none, createdAt := 1 }],
    likes := [{ userId := "u", postId := "p1", createdAt := 2 }],
    follows := [{ followerId := "u", followingId := "a", createdAt := 2 }],
    comments := [],
    notifications := [{ id := "n1", userId := "a", creatorId := "u", type := .FOLLOW,
                        postId := none, commentId := none, read := false, createdAt := 2 }],
    nextId := 10, now := 5, dbError := none }

/-- The store shape left by like → mark-as-read → unlike: `"u"` does not
currently like `"p1"`, and the only LIKE notification for
`("a", "u", "p1")` is already **read**. -/
def readNotifStore : Store :=
  { users := [{ id := "1", clerkId := "a", username := "alice" },
              { id := "2", clerkId := "u", username := "uma" }],
    posts := [{ id := "p1", authorId := "a", content := ['h', 'i'], image := none, createdAt := 1 }],
    likes := [],
    follows := [],
    comments := [],
    notifications := [{ id := "n1", userId := "a", creatorId := "u", type := .LIKE,
                        postId := some "p1", commentId := none, read := true, createdAt := 3 }],
    nextId := 10, now := 5, dbError := none }

/-- `readNotifStore` in the intermediate state where `"u"` still likes
`"p1"` (after like → mark-as-read, before unlike). -/
def likedReadStore : Store :=
  { readNotifStore with likes := [{ userId := "u", postId := "p1", createdAt := 2 }] }

/-- The store reached from `likedReadStore` by `unlikePost`. -/
def likedReadStoreAfter : Store :=
  { likedReadStore with likes := [] }

/-- `engagedStore` with a failing persistence layer. -/
def failingStore : Store :=
  { engagedStore with dbError := some "connection refused" }

/-- A store with three posts by `"a"` with distinct timestamps (listed
out of order). -/
def feedStore : Store :=
  { users := [{ id := "1", clerkId := "a", username := "alice" }],
    posts := [{ id := "p1", authorId := "a", content := ['x'], image := none, createdAt := 1 },
              { id := "p3", authorId := "a", content := ['z'], image := none, createdAt := 3 },
              { id := "p2", authorId := "a", content := ['y'], image := none, createdAt := 2 }],
    likes := [], follows := [], comments := [], notifications := [],
    nextId := 10, now := 5, dbError := none }

/-- The notification invariant of the data model: no self-notification. -/
def NoSelfNotification (ns : List Notification) : Prop :=
  ∀ n ∈ ns, n.creatorId ≠ n.userId

/-- The store reached from `feedStore` when `"u"` likes `"p1"`. -/
def feedStoreAfterLike : Store :=
  { feedStore with
    likes := [{ userId := "u", postId := "p1", createdAt := 5 }],
    notifications := [{ id := "10", userId := "a", creatorId := "u",
                        type := .LIKE, postId := some "p1", commentId := none,
                        read := false, createdAt := 5 }],
    nextId := 11 }

/-!
## Claim theorems
-/

/-- C2: for every authenticated caller, `likePost` on a post the caller
has already liked and `followUser` on a user the caller already follows
return the structured no-op result `{success:false, message}` without
creating a second row and without throwing; `unlikePost` on a post the
caller has not liked and `unfollowUser` on a user the caller does not
follow likewise return `{success:false, message}` rather than an error. -/
theorem engagement_idempotent_noops
    (s : Store) (uid pid fid : String) (hdb : s.dbError = none) :
    ((s.posts.find? fun q => q.id == pid).isSome = true →
      (s.likes.find? fun l => l.userId == uid && l.postId == pid).isSome = true →
      likePost (some uid) pid s = .ok (.noop "Post already liked", s)) ∧
    ((s.likes.find? fun l => l.userId == uid && l.postId == pid) = none →
      unlikePost (some uid) pid s = .ok (.noop "Post not liked", s)) ∧
    (uid ≠ fid →
      (s.users.find? fun u => u.clerkId == fid).isSome = true →
      (s.follows.find? fun f => f.followerId == uid && f.followingId == fid).isSome = true →
      followUser (some uid) fid s = .ok (.noop "Already following user", s)) ∧
    ((s.follows.find? fun f => f.followerId == uid && f.followingId == fid) = none →
      unfollowUser (some uid) fid s = .ok (.noop "Not following user", s)) := by
  refine ⟨?_, ?_, ?_, ?_⟩
  · intro hpost hlike
    obtain ⟨p, hp⟩ := Option.isSome_iff_exists.mp hpost
    obtain ⟨l, hl⟩ := Option.isSome_iff_exists.mp hlike
    simp [likePost, wrapError, Store.postFindUnique, Store.likeFindUnique, Store.run, hdb, hp, hl]
  · intro hnl
    simp [unlikePost, wrapError, Store.likeDelete, hdb, hnl]
  · intro hne huser hfollow
    obtain ⟨v, hv⟩ := Option.isSome_iff_exists.mp huser
    obtain ⟨f, hf⟩ := Option.isSome_iff_exists.mp hfollow
    simp [followUser, wrapError, Store.userFindUniqueByClerkId, Store.followsFindUnique,
      Store.run, hdb, hv, hf, hne]
  · intro hnf
    simp [unfollowUser, wrapError, Store.followsDelete, hdb, hnf]

/-- Witness for C2 at `engagedStore`: `"u"` already likes `"p1"` and
already follows `"a"`, has not liked `"p9"` and does not follow `"b"`. -/
theorem engagement_idempotent_noops_witness :
    likePost (some "u") "p1" engagedStore = .ok (.noop "Post already liked", engagedStore) ∧
    followUser (some "u") "a" engagedStore = .ok (.noop "Already following user", engagedStore) ∧
    unlikePost (some "u") "p9" engagedStore = .ok (.noop "Post not liked", engagedStore) ∧
    unfollowUser (some "u") "b" engagedStore = .ok (.noop "Not following user", engagedStore) :=
  ⟨(engagement_idempotent_noops engagedStore "u" "p1" "a" rfl).1 (by decide) (by decide),
   (engagement_idempotent_noops engagedStore "u" "p1" "a" rfl).2.2.1 (by decide) (by decide)
     (by decide),
   (engagement_idempotent_noops engagedStore "u" "p9" "b" rfl).2.1 (by decide),
   (engagement_idempotent_noops engagedStore "u" "p9" "b" rfl).2.2.2 (by decide)⟩

/-- C1 (amended): for an authenticated caller `uid` liking an existing
post it has not yet liked, the like succeeds; no notification row is
inserted when `uid` authored the post, and otherwise exactly one unread
LIKE notification `(recipient := author, actor := uid, post := pid)` is
inserted **unless a LIKE notification with those fields — read or
unread — already exists**, in which case none is inserted. -/
theorem likePost_notification_fanout
    (s : Store) (uid pid : String) (p : Post)
    (hdb : s.dbError = none)
    (hp : s.posts.find? (fun q => q.id == pid) = some p)
    (hnl : s.likes.find? (fun l => l.userId == uid && l.postId == pid) = none) :
    ∃ like s1, likePost (some uid) pid s = .ok (.ok like, s1) ∧
      (p.authorId = uid → s1.notifications = s.notifications) ∧
      (p.authorId ≠ uid →
        ((s.notifications.find? fun n =>
            n.userId == p.authorId && n.creatorId == uid && n.type == NotificationType.LIKE
              && n.postId == some pid) ≠ none →
          s1.notifications = s.notifications) ∧
        ((s.notifications.find? fun n =>
            n.userId == p.authorId && n.creatorId == uid && n.type == NotificationType.LIKE
              && n.postId == some pid) = none →
          ∃ n, s1.notifications = s.notifications ++ [n] ∧
            n.userId = p.authorId ∧ n.creatorId = uid ∧ n.type = NotificationType.LIKE ∧
            n.postId = some pid ∧ n.read = false)) := by
  by_cases hauth : p.authorId = uid
  · refine ⟨{ userId := uid, postId := pid, createdAt := s.now },
      { s with likes := s.likes ++ [{ userId := uid, postId := pid, createdAt := s.now }] },
      ?_, fun _ => rfl, fun hne => absurd hauth hne⟩
    simp [likePost, wrapError, Store.postFindUnique, Store.likeFindUnique, Store.likeCreate,
      Store.run, hdb, hp, hnl, hauth]
  · cases hfind : s.notifications.find? fun n =>
        n.userId == p.authorId && n.creatorId == uid && n.type == NotificationType.LIKE
          && n.postId == some pid with
    | some n0 =>
      refine ⟨{ userId := uid, postId := pid, createdAt := s.now },
        { s with likes := s.likes ++ [{ userId := uid, postId := pid, createdAt := s.now }] },
        ?_, fun h => absurd h hauth, fun _ => ⟨fun _ => rfl, fun h0 => absurd h0 (by simp)⟩⟩
      simp [likePost, wrapError, Store.postFindUnique, Store.likeFindUnique, Store.likeCreate,
        Store.notificationFindFirst, Store.run, hdb, hp, hnl, hauth, hfind]
    | none =>
      refine ⟨{ userId := uid, postId := pid, createdAt := s.now },
        { s with
            likes := s.likes ++ [{ userId := uid, postId := pid, createdAt := s.now }],
            notifications := s.notifications ++
              [{ id := toString s.nextId, userId := p.authorId, creatorId := uid,
                 type := NotificationType.LIKE, postId := some pid, commentId := none,
                 read := false, createdAt := s.now }],
            nextId := s.nextId + 1 },
        ?_, fun h => absurd h hauth,
        fun _ => ⟨fun h0 => absurd rfl h0,
          fun _ => ⟨{ id := toString s.nextId, userId := p.authorId, creatorId := uid,
                      type := NotificationType.LIKE, postId := some pid, commentId := none,
                      read := false, createdAt := s.now },
                    rfl, rfl, rfl, rfl, rfl, rfl⟩⟩⟩
      simp [likePost, wrapError, Store.postFindUnique, Store.likeFindUnique, Store.likeCreate,
        Store.notificationFindFirst, Store.notificationCreate, Store.run, hdb, hp, hnl, hauth,
        hfind]

/-- Witness for C1 at `feedStore`: `"u"` likes `"p1"` (authored by
`"a"`), which it has not liked before; no equivalent notification
exists. -/
theorem likePost_notification_fanout_witness :
    ∃ like s1, likePost (some "u") "p1" feedStore = .ok (.ok like, s1) ∧
      (("a" : String) = "u" → s1.notifications = feedStore.notifications) ∧
      (("a" : String) ≠ "u" →
        ((feedStore.notifications.find? fun n =>
            n.userId == "a" && n.creatorId == "u" && n.type == NotificationType.LIKE
              && n.postId == some "p1") ≠ none →
          s1.notifications = feedStore.notifications) ∧
        ((feedStore.notifications.find? fun n =>
            n.userId == "a" && n.creatorId == "u" && n.type == NotificationType.LIKE
              && n.postId == some "p1") = none →
          ∃ n, s1.notifications = feedStore.notifications ++ [n] ∧
            n.userId = "a" ∧ n.creatorId = "u" ∧ n.type = NotificationType.LIKE ∧
            n.postId = some "p1" ∧ n.read = false)) :=
  likePost_notification_fanout feedStore "u" "p1"
    { id := "p1", authorId := "a", content := ['x'], image := none, createdAt := 1 }
    rfl (by decide) (by decide)

/-- Counterexample to C1 as stated: at `readNotifStore` the caller `"u"`
is authenticated, post `"p1"` exists and is authored by `"a" ≠ "u"`,
`"u"` has not liked it, and **no unread** LIKE notification for
`("a","u","p1")` exists (only a read one does) — yet `likePost` inserts
no notification row at all, where the claim requires exactly one unread
LIKE notification to be inserted. -/
theorem likePost_unread_only_check_counterexample :
    (readNotifStore.posts.find? fun q => q.id == "p1") =
      some { id := "p1", authorId := "a", content := ['h', 'i'], image := none, createdAt := 1 } ∧
    (readNotifStore.likes.find? fun l => l.userId == "u" && l.postId == "p1") = none ∧
    (readNotifStore.notifications.filter fun n =>
        n.userId == "a" && n.creatorId == "u" && n.type == NotificationType.LIKE
          && n.postId == some "p1" && !n.read).length = 0 ∧
    likePost (some "u") "p1" readNotifStore =
      .ok (.ok { userId := "u", postId := "p1", createdAt := 5 },
           { readNotifStore with likes := [{ userId := "u", postId := "p1", createdAt := 5 }] }) ∧
    (({ readNotifStore with
          likes := [{ userId := "u", postId := "p1", createdAt := 5 }] } : Store).notifications.filter
        fun n =>
          n.userId == "a" && n.creatorId == "u" && n.type == NotificationType.LIKE
            && n.postId == some "p1" && !n.read).length = 0 := by
  decide

/-- C3 (amended): when the persistence layer fails with message `m`,
`likePost`, `followUser`, `createComment`, `deleteComment`, `createPost`
and `deletePost` surface a wrapped operation-failure error carrying `m`;
`unlikePost` and `unfollowUser`, however, convert the failure of their
delete call into the no-op `{success:false, message}` result via
`.catch(() => null)` instead of surfacing it. -/
theorem store_failure_surfacing
    (s : Store) (m uid pid fid cid : String) (content : List Char)
    (hdb : s.dbError = some m) (hne : uid ≠ fid)
    (hc : (jsTrim content).isEmpty = false) (hlen : content.length ≤ 280) :
    likePost (some uid) pid s = .error ("Failed to like post: " ++ m) ∧
    followUser (some uid) fid s = .error ("Failed to follow user: " ++ m) ∧
    createComment (some uid) pid content s = .error ("Failed to create comment: " ++ m) ∧
    deleteComment (some uid) cid s = .error ("Failed to delete comment: " ++ m) ∧
    createPost (some uid) content none s = .error ("Failed to create post: " ++ m) ∧
    deletePost (some uid) pid s = .error ("Failed to delete post: " ++ m) ∧
    unlikePost (some uid) pid s = .ok (.noop "Post not liked", s) ∧
    unfollowUser (some uid) fid s = .ok (.noop "Not following user", s) := by
  refine ⟨?_, ?_, ?_, ?_, ?_, ?_, ?_, ?_⟩
  · simp [likePost, wrapError, Store.postFindUnique, Store.run, hdb]
  · simp [followUser, wrapError, Store.userFindUniqueByClerkId, Store.run, hdb, hne]
  · simp [createComment, wrapError, Store.postFindUnique, Store.run, hdb, hc]
  · simp [deleteComment, wrapError, Store.commentFindUnique, Store.run, hdb]
  · simp [createPost, wrapError, Store.postCreate, Store.run, hdb, hc, Nat.not_lt.mpr hlen]
  · simp [deletePost, wrapError, Store.postFindUnique, Store.run, hdb]
  · simp [unlikePost, wrapError, Store.likeDelete, hdb]
  · simp [unfollowUser, wrapError, Store.followsDelete, hdb]

/-- Witness for C3 at `failingStore` (persistence layer failing with
`"connection refused"`). -/
theorem store_failure_surfacing_witness :
    likePost (some "u") "p1" failingStore =
      .error ("Failed to like post: " ++ "connection refused") ∧
    followUser (some "u") "a" failingStore =
      .error ("Failed to follow user: " ++ "connection refused") ∧
    createComment (some "u") "p1" ['h', 'i'] failingStore =
      .error ("Failed to create comment: " ++ "connection refused") ∧
    deleteComment (some "u") "c1" failingStore =
      .error ("Failed to delete comment: " ++ "connection refused") ∧
    createPost (some "u") ['h', 'i'] none failingStore =
      .error ("Failed to create post: " ++ "connection refused") ∧
    deletePost (some "u") "p1" failingStore =
      .error ("Failed to delete post: " ++ "connection refused") ∧
    unlikePost (some "u") "p1" failingStore = .ok (.noop "Post not liked", failingStore) ∧
    unfollowUser (some "u") "a" failingStore = .ok (.noop "Not following user", failingStore) :=
  store_failure_surfacing failingStore "connection refused" "u" "p1" "a" "c1" ['h', 'i']
    rfl (by decide) (by decide) (by decide)

/-- Counterexample to C3 as stated: at `failingStore` the caller `"u"`
does like `"p1"` and does follow `"a"`, and the persistence layer fails
every access with `"connection refused"` — yet `unlikePost` and
`unfollowUser` return the no-op `{success:false, message}` result
instead of surfacing the wrapped persistence error. -/
theorem delete_error_swallowed_counterexample :
    failingStore.dbError = some "connection refused" ∧
    (failingStore.likes.filter fun l => l.userId == "u" && l.postId == "p1").length = 1 ∧
    (failingStore.follows.filter fun f =>
        f.followerId == "u" && f.followingId == "a").length = 1 ∧
    unlikePost (some "u") "p1" failingStore = .ok (.noop "Post not liked", failingStore) ∧
    unfollowUser (some "u") "a" failingStore = .ok (.noop "Not following user", failingStore) := by
  decide

/-- C4: for every `page ≥ 1` and `limit`, `getFeedPosts` returns at most
`limit` posts in descending creation-time order, skipping the first
`(page-1)*limit` posts of the sorted feed, together with the total post
count, the page and the limit, and `hasMore = true` iff
`page*limit < total`. -/
theorem getFeedPosts_pagination
    (s : Store) (page limit : Nat) (hp : 1 ≤ page) (hdb : s.dbError = none) :
    ∃ fp, getFeedPosts page limit s = .ok (fp, s) ∧
      fp.posts = ((sortPostsByCreatedAtDesc s.posts).drop ((page - 1) * limit)).take limit ∧
      fp.posts.length ≤ limit ∧
      fp.posts.Pairwise postCreatedDesc ∧
      fp.total = s.posts.length ∧ fp.page = page ∧ fp.limit = limit ∧
      (fp.hasMore = true ↔ page * limit < s.posts.length) := by
  refine ⟨{ posts := ((sortPostsByCreatedAtDesc s.posts).drop ((page - 1) * limit)).take limit,
            total := s.posts.length, page := page, limit := limit,
            hasMore := decide ((page - 1) * limit + limit < s.posts.length) },
    ?_, rfl, List.length_take_le limit _, ?_, rfl, rfl, rfl, ?_⟩
  · simp [getFeedPosts, wrapError, Store.postFindManyFeed, Store.postCount, Store.run, hdb]
  · exact ((List.sorted_insertionSort postCreatedDesc s.posts).sublist
      ((List.take_sublist _ _).trans (List.drop_sublist _ _)))
  · have hml : (page - 1) * limit + limit = page * limit := by
      calc (page - 1) * limit + limit = (page - 1 + 1) * limit := by ring
        _ = page * limit := by rw [Nat.sub_add_cancel hp]
    simp [hml]

/-- Witness for C4 at `feedStore` with the default page and limit. -/
theorem getFeedPosts_pagination_witness :
    ∃ fp, getFeedPosts 1 10 feedStore = .ok (fp, feedStore) ∧
      fp.posts = ((sortPostsByCreatedAtDesc feedStore.posts).drop ((1 - 1) * 10)).take 10 ∧
      fp.posts.length ≤ 10 ∧
      fp.posts.Pairwise postCreatedDesc ∧
      fp.total = feedStore.posts.length ∧ fp.page = 1 ∧ fp.limit = 10 ∧
      (fp.hasMore = true ↔ 1 * 10 < feedStore.posts.length) :=
  getFeedPosts_pagination feedStore 1 10 (by decide) rfl

/-- Trimming never lengthens the content. -/
theorem jsTrim_length_le (cs : List Char) : (jsTrim cs).length ≤ cs.length := by
  unfold jsTrim
  calc ((cs.dropWhile Char.isWhitespace).reverse.dropWhile Char.isWhitespace).reverse.length
      = ((cs.dropWhile Char.isWhitespace).reverse.dropWhile Char.isWhitespace).length := by
        rw [List.length_reverse]
    _ ≤ (cs.dropWhile Char.isWhitespace).reverse.length :=
        (List.dropWhile_sublist Char.isWhitespace).length_le
    _ = (cs.dropWhile Char.isWhitespace).length := by rw [List.length_reverse]
    _ ≤ cs.length := (List.dropWhile_sublist Char.isWhitespace).length_le

/-- C5: for an authenticated caller, `createPost` fails with the
validation error when the content is empty or whitespace-only or longer
than 280 characters, and every post row it creates holds the trimmed
content, which is non-empty and at most 280 characters long. -/
theorem createPost_content_validation
    (s : Store) (uid : String) (content : List Char) (img : Option String)
    (hdb : s.dbError = none) :
    (jsTrim content = [] →
      createPost (some uid) content img s =
        .error "Failed to create post: Post content cannot be empty") ∧
    (jsTrim content ≠ [] → 280 < content.length →
      createPost (some uid) content img s =
        .error "Failed to create post: Post must be 280 characters or less") ∧
    (jsTrim content ≠ [] → content.length ≤ 280 →
      ∃ p s1, createPost (some uid) content img s = .ok (p, s1) ∧
        s1.posts = s.posts ++ [p] ∧ p.content = jsTrim content ∧
        0 < p.content.length ∧ p.content.length ≤ 280) := by
  refine ⟨?_, ?_, ?_⟩
  · intro hempty
    simp [createPost, wrapError, hempty]
  · intro hne hlong
    simp [createPost, wrapError, List.isEmpty_iff, hne, hlong]
  · intro hne hlen
    have hpos : 0 < (jsTrim content).length := List.length_pos.mpr hne
    set p : Post :=
      { id := toString s.nextId, authorId := uid, content := jsTrim content, image := img,
        createdAt := s.now } with hpdef
    refine ⟨p, { s with posts := s.posts ++ [p], nextId := s.nextId + 1 },
      ?_, rfl, rfl, hpos, le_trans (jsTrim_length_le content) hlen⟩
    simp [createPost, wrapError, Store.postCreate, Store.run, hdb, List.isEmpty_iff, hne,
      Nat.not_lt.mpr hlen, hpdef]

/-- Witness for C5 at `engagedStore` with valid, over-long and blank
contents. -/
theorem createPost_content_validation_witness :
    (jsTrim [' '] = [] →
      createPost (some "u") [' '] none engagedStore =
        .error "Failed to create post: Post content cannot be empty") ∧
    (jsTrim [' '] ≠ [] → 280 < ([' '] : List Char).length →
      createPost (some "u") [' '] none engagedStore =
        .error "Failed to create post: Post must be 280 characters or less") ∧
    (jsTrim [' '] ≠ [] → ([' '] : List Char).length ≤ 280 →
      ∃ p s1, createPost (some "u") [' '] none engagedStore = .ok (p, s1) ∧
        s1.posts = engagedStore.posts ++ [p] ∧ p.content = jsTrim [' '] ∧
        0 < p.content.length ∧ p.content.length ≤ 280) :=
  createPost_content_validation engagedStore "u" [' '] none rfl


/-- `likePost` preserves the no-self-notification invariant. -/
theorem likePost_no_self_notification
    (s : Store) (session : Option String) (pid : String) (r : OpResult Like) (s' : Store)
    (hinv : NoSelfNotification s.notifications)
    (h : likePost session pid s = .ok (r, s')) :
    NoSelfNotification s'.notifications := by
  cases session with
  | none => simp [likePost, wrapError] at h
  | some uid =>
    cases hdb : s.dbError with
    | some m =>
      simp [likePost, wrapError, Store.postFindUnique, Store.run, hdb] at h
    | none =>
      cases hp : s.posts.find? fun p => p.id == pid with
      | none =>
        simp [likePost, wrapError, Store.postFindUnique, Store.run, hdb, hp] at h
      | some post =>
        cases hl : s.likes.find? fun l => l.userId == uid && l.postId == pid with
        | some l =>
          simp [likePost, wrapError, Store.postFindUnique, Store.likeFindUnique, Store.run,
            hdb, hp, hl] at h
          obtain ⟨-, rfl⟩ := h
          exact hinv
        | none =>
          by_cases hauth : post.authorId = uid
          · simp [likePost, wrapError, Store.postFindUnique, Store.likeFindUnique,
              Store.likeCreate, Store.run, hdb, hp, hl, hauth] at h
            obtain ⟨-, rfl⟩ := h
            exact hinv
          · cases hnf : s.notifications.find? fun n =>
                n.userId == post.authorId && n.creatorId == uid
                  && n.type == NotificationType.LIKE && n.postId == some pid with
            | some n0 =>
              simp [likePost, wrapError, Store.postFindUnique, Store.likeFindUnique,
                Store.likeCreate, Store.notificationFindFirst, Store.run, hdb, hp, hl, hauth,
                hnf] at h
              obtain ⟨-, rfl⟩ := h
              exact hinv
            | none =>
              simp [likePost, wrapError, Store.postFindUnique, Store.likeFindUnique,
                Store.likeCreate, Store.notificationFindFirst, Store.notificationCreate,
                Store.run, hdb, hp, hl, hauth, hnf] at h
              obtain ⟨-, rfl⟩ := h
              intro n hn
              rcases List.mem_append.mp hn with hold | hnew
              · exact hinv n hold
              · rcases List.mem_singleton.mp hnew with rfl
                exact fun hcu => hauth hcu.symm

/-- `createComment` preserves the no-self-notification invariant. -/
theorem createComment_no_self_notification
    (s : Store) (session : Option String) (pid : String) (content : List Char)
    (c : Comment) (s' : Store)
    (hinv : NoSelfNotification s.notifications)
    (h : createComment session pid content s = .ok (c, s')) :
    NoSelfNotification s'.notifications := by
  cases session with
  | none => simp [createComment, wrapError] at h
  | some uid =>
    by_cases hc : (jsTrim content).isEmpty = true
    · simp [createComment, wrapError, hc] at h
    · cases hdb : s.dbError with
      | some m =>
        simp [createComment, wrapError, Store.postFindUnique, Store.run, hdb, hc] at h
      | none =>
        cases hp : s.posts.find? fun p => p.id == pid with
        | none =>
          simp [createComment, wrapError, Store.postFindUnique, Store.run, hdb, hp, hc] at h
        | some post =>
          by_cases hauth : post.authorId = uid
          · simp [createComment, wrapError, Store.postFindUnique, Store.commentCreate,
              Store.run, hdb, hp, hc, hauth] at h
            obtain ⟨-, rfl⟩ := h
            exact hinv
          · simp [createComment, wrapError, Store.postFindUnique, Store.commentCreate,
              Store.notificationCreate, Store.run, hdb, hp, hc, hauth] at h
            obtain ⟨-, rfl⟩ := h
            intro n hn
            rcases List.mem_append.mp hn with hold | hnew
            · exact hinv n hold
            · rcases List.mem_singleton.mp hnew with rfl
              exact fun hcu => hauth hcu.symm

/-- `followUser` preserves the no-self-notification invariant (the
self-follow guard runs before any write). -/
theorem followUser_no_self_notification
    (s : Store) (session : Option String) (fid : String) (r : OpResult Follows) (s' : Store)
    (hinv : NoSelfNotification s.notifications)
    (h : followUser session fid s = .ok (r, s')) :
    NoSelfNotification s'.notifications := by
  cases session with
  | none => simp [followUser, wrapError] at h
  | some uid =>
    by_cases hself : uid = fid
    · simp [followUser, wrapError, hself] at h
    · cases hdb : s.dbError with
      | some m =>
        simp [followUser, wrapError, Store.userFindUniqueByClerkId, Store.run, hdb, hself] at h
      | none =>
        cases hu : s.users.find? fun u => u.clerkId == fid with
        | none =>
          simp [followUser, wrapError, Store.userFindUniqueByClerkId, Store.run, hdb, hself,
            hu] at h
        | some v =>
          cases hf : s.follows.find? fun f => f.followerId == uid && f.followingId == fid with
          | some f0 =>
            simp [followUser, wrapError, Store.userFindUniqueByClerkId, Store.followsFindUnique,
              Store.run, hdb, hself, hu, hf] at h
            obtain ⟨-, rfl⟩ := h
            exact hinv
          | none =>
            simp [followUser, wrapError, Store.userFindUniqueByClerkId, Store.followsFindUnique,
              Store.followsCreate, Store.notificationCreate, Store.run, hdb, hself, hu, hf] at h
            obtain ⟨-, rfl⟩ := h
            intro n hn
            rcases List.mem_append.mp hn with hold | hnew
            · exact hinv n hold
            · rcases List.mem_singleton.mp hnew with rfl
              exact hself

/-- C6: every notification row created by `likePost`, `createComment` or
`followUser` satisfies `creatorId ≠ userId`: the like and comment paths
skip the insert when the actor authored the target post, and the follow
path rejects self-follow before writing anything, so all three preserve
the no-self-notification store invariant. -/
theorem no_self_notification_invariant
    (s s' : Store) (session : Option String) (pid fid : String) (content : List Char)
    (rl : OpResult Like) (c : Comment) (rf : OpResult Follows)
    (hinv : NoSelfNotification s.notifications) :
    (likePost session pid s = .ok (rl, s') → NoSelfNotification s'.notifications) ∧
    (createComment session pid content s = .ok (c, s') → NoSelfNotification s'.notifications) ∧
    (followUser session fid s = .ok (rf, s') → NoSelfNotification s'.notifications) :=
  ⟨likePost_no_self_notification s session pid rl s' hinv,
   createComment_no_self_notification s session pid content c s' hinv,
   followUser_no_self_notification s session fid rf s' hinv⟩

/-- Witness for C6 at `feedStore` (empty notification table, so the
invariant holds trivially before the operations). -/
theorem no_self_notification_invariant_witness :
    (likePost (some "u") "p1" feedStore =
        .ok (.ok { userId := "u", postId := "p1", createdAt := 5 }, feedStoreAfterLike) →
      NoSelfNotification feedStoreAfterLike.notifications) ∧
    (createComment (some "u") "p1" ['h', 'i'] feedStore =
        .ok ({ id := "10", postId := "p1", authorId := "u", content := ['h', 'i'],
               createdAt := 5 }, feedStoreAfterLike) →
      NoSelfNotification feedStoreAfterLike.notifications) ∧
    (followUser (some "u") "a" feedStore =
        .ok (.ok { followerId := "u", followingId := "a", createdAt := 5 },
             feedStoreAfterLike) →
      NoSelfNotification feedStoreAfterLike.notifications) :=
  no_self_notification_invariant feedStore feedStoreAfterLike (some "u") "p1" "a" ['h', 'i']
    (.ok { userId := "u", postId := "p1", createdAt := 5 })
    { id := "10", postId := "p1", authorId := "u", content := ['h', 'i'], createdAt := 5 }
    (.ok { followerId := "u", followingId := "a", createdAt := 5 })
    (by intro n hn; simp [feedStore] at hn)

/-- C7: on mutation failure every optimistic widget restores its
previous displayed state and issues exactly one mutation call (no
retry), but only the comment composer writes the error into user-visible
state — the like and follow handlers leave `surfacedError = none`
(their catch branches only log to the console, with the error toast
still a TODO), contradicting the claim that every widget surfaces an
error to the user. -/
theorem optimistic_widgets_failure_behaviour :
    handleLike (some "u") { isLiked := false, likeCount := 3 }
        (.failure "Failed to like post: connection refused") =
      { final := { isLiked := false, likeCount := 3 }, mutationCalls := 1,
        surfacedError := none } ∧
    handleFollowToggle false (.failure "Failed to follow user: connection refused") =
      { final := false, mutationCalls := 1, surfacedError := none } ∧
    handleSubmitComment (some "u")
        { comments := [{ id := "c1", content := ['y'] }], commentText := ['h', 'i'],
          error := none }
        "temp-1" (.error "Failed to create comment: connection refused") =
      { final := { comments := [{ id := "c1", content := ['y'] }], commentText := [],
                   error := some "Failed to create comment: connection refused" },
        mutationCalls := 1,
        surfacedError := some "Failed to create comment: connection refused" } := by
  decide

/-- C8: `unlikePost` never touches notifications (or any table other
than likes), removes no like row other than the caller's row for the
given post, and — when the store is healthy and such a row exists —
removes exactly that row. -/
theorem unlikePost_frame
    (s : Store) (uid pid : String) (r : OpResult String) (s' : Store)
    (h : unlikePost (some uid) pid s = .ok (r, s')) :
    s'.notifications = s.notifications ∧
    s'.users = s.users ∧ s'.posts = s.posts ∧ s'.follows = s.follows ∧
    s'.comments = s.comments ∧
    (∀ l ∈ s'.likes, l ∈ s.likes) ∧
    (∀ l ∈ s.likes, (l.userId = uid ∧ l.postId = pid) ∨ l ∈ s'.likes) ∧
    (s.dbError = none → (∃ l ∈ s.likes, l.userId = uid ∧ l.postId = pid) →
      ∀ l ∈ s'.likes, ¬(l.userId = uid ∧ l.postId = pid)) := by
  cases hdb : s.dbError with
  | some m =>
    simp [unlikePost, wrapError, Store.likeDelete, hdb] at h
    obtain ⟨-, rfl⟩ := h
    exact ⟨rfl, rfl, rfl, rfl, rfl, fun l hl => hl, fun l hl => Or.inr hl,
      fun hnone => by simp [hdb] at hnone⟩
  | none =>
    cases hl : s.likes.find? fun l => l.userId == uid && l.postId == pid with
    | none =>
      simp [unlikePost, wrapError, Store.likeDelete, hdb, hl] at h
      obtain ⟨-, rfl⟩ := h
      refine ⟨rfl, rfl, rfl, rfl, rfl, fun l hl => hl, fun l hl => Or.inr hl, ?_⟩
      intro _ hex
      obtain ⟨l0, hl0, hu, hp0⟩ := hex
      have := List.find?_eq_none.mp hl l0 hl0
      simp [hu, hp0] at this
    | some l0 =>
      simp [unlikePost, wrapError, Store.likeDelete, hdb, hl] at h
      obtain ⟨-, rfl⟩ := h
      refine ⟨rfl, rfl, rfl, rfl, rfl, ?_, ?_, ?_⟩
      · intro l hl
        exact (List.mem_filter.mp hl).1
      · intro l hl
        by_cases hmatch : l.userId = uid ∧ l.postId = pid
        · exact Or.inl hmatch
        · refine Or.inr (List.mem_filter.mpr ⟨hl, ?_⟩)
          rcases Decidable.not_and_iff_or_not.mp hmatch with hu | hp0
          · simp [hu]
          · simp [hp0]
      · intro _ _ l hl
        have hmem := List.mem_filter.mp hl
        intro hcontra
        rcases hmem with ⟨-, hpred⟩
        simp [hcontra.1, hcontra.2] at hpred

/-- Witness for C8: the scenario store after like → mark-as-read, where
`"u"` unlikes `"p1"`: the like row disappears and the read LIKE
notification row survives untouched. -/
theorem unlikePost_frame_witness :
    likedReadStoreAfter.notifications = likedReadStore.notifications ∧
    likedReadStoreAfter.users = likedReadStore.users ∧
    likedReadStoreAfter.posts = likedReadStore.posts ∧
    likedReadStoreAfter.follows = likedReadStore.follows ∧
    likedReadStoreAfter.comments = likedReadStore.comments ∧
    (∀ l ∈ likedReadStoreAfter.likes, l ∈ likedReadStore.likes) ∧
    (∀ l ∈ likedReadStore.likes, (l.userId = "u" ∧ l.postId = "p1") ∨
      l ∈ likedReadStoreAfter.likes) ∧
    (likedReadStore.dbError = none →
      (∃ l ∈ likedReadStore.likes, l.userId = "u" ∧ l.postId = "p1") →
      ∀ l ∈ likedReadStoreAfter.likes, ¬(l.userId = "u" ∧ l.postId = "p1")) :=
  unlikePost_frame likedReadStore "u" "p1" (.ok "Post unliked") likedReadStoreAfter (by decide)

/-- Updating the `read` flag of notification `nid` keeps it findable by
id, now with `read = true`. -/
theorem find?_map_markRead (nid : String) :
    ∀ (ns : List Notification) (n : Notification),
      ns.find? (fun m => m.id == nid) = some n →
      (ns.map fun m => if m.id == nid then { m with read := true } else m).find?
          (fun m => m.id == nid) = some { n with read := true } := by
  intro ns
  induction ns with
  | nil => intro n h; simp at h
  | cons hd tl ih =>
    intro n h
    by_cases hid : hd.id = nid
    · rw [List.find?_cons_of_pos _ (by simp [hid])] at h
      obtain rfl := Option.some.injEq .. ▸ h
      simp [List.find?_cons_of_pos, hid]
    · rw [List.find?_cons_of_neg _ (by simp [hid])] at h
      have := ih n h
      simpa [List.find?_cons_of_neg, hid] using this

/-- Setting the `read` flag of notification `nid` twice equals setting
it once. -/
theorem map_markRead_idem (nid : String) (ns : List Notification) :
    ((ns.map fun m => if m.id == nid then { m with read := true } else m).map
        fun m => if m.id == nid then { m with read := true } else m) =
      ns.map fun m => if m.id == nid then { m with read := true } else m := by
  rw [List.map_map]
  apply List.map_congr_left
  intro m _
  by_cases hid : m.id = nid
  · simp [Function.comp, hid]
  · simp [Function.comp, hid]

/-- A single successful `markNotificationAsRead` call: returns the row
with `read = true` and maps the `read` update over the store. -/
theorem markRead_ok (s : Store) (uid nid : String) (n : Notification)
    (hdb : s.dbError = none)
    (hn : s.notifications.find? (fun m => m.id == nid) = some n)
    (hown : n.userId = uid) :
    markNotificationAsRead (some uid) nid s =
      .ok ({ n with read := true },
           { s with notifications :=
              s.notifications.map fun m => if m.id == nid then { m with read := true } else m }) := by
  simp [markNotificationAsRead, wrapError, Store.notificationFindUnique,
    Store.notificationUpdateRead, Store.run, hdb, hn, hown]

/-- C9: for a notification owned by the authenticated caller,
`markNotificationAsRead` succeeds leaving `read = true`, and calling it
again on the resulting store succeeds without error, returns the same
row, and leaves the store unchanged with `read` still `true`. -/
theorem markNotificationAsRead_idempotent
    (s : Store) (uid nid : String) (n : Notification)
    (hdb : s.dbError = none)
    (hn : s.notifications.find? (fun m => m.id == nid) = some n)
    (hown : n.userId = uid) :
    ∃ s1, markNotificationAsRead (some uid) nid s = .ok ({ n with read := true }, s1) ∧
      markNotificationAsRead (some uid) nid s1 = .ok ({ n with read := true }, s1) ∧
      s1.notifications.find? (fun m => m.id == nid) = some { n with read := true } ∧
      ({ n with read := true } : Notification).read = true := by
  refine ⟨{ s with notifications :=
      s.notifications.map fun m => if m.id == nid then { m with read := true } else m },
    markRead_ok s uid nid n hdb hn hown, ?_,
    find?_map_markRead nid s.notifications n hn, rfl⟩
  have h2 := markRead_ok
    { s with notifications :=
        s.notifications.map fun m => if m.id == nid then { m with read := true } else m }
    uid nid { n with read := true } hdb
    (find?_map_markRead nid s.notifications n hn) hown
  rw [show ((({ s with notifications :=
      s.notifications.map fun m => if m.id == nid then { m with read := true } else m } :
        Store).notifications).map fun m => if m.id == nid then { m with read := true } else m) =
      s.notifications.map fun m => if m.id == nid then { m with read := true } else m
    from map_markRead_idem nid s.notifications] at h2
  exact h2

/-- Witness for C9 at `engagedStore`, whose notification `"n1"` is owned
by `"a"`. -/
theorem markNotificationAsRead_idempotent_witness :
    ∃ s1, markNotificationAsRead (some "a") "n1" engagedStore =
        .ok ({ id := "n1", userId := "a", creatorId := "u", type := .FOLLOW, postId := none,
               commentId := none, read := true, createdAt := 2 }, s1) ∧
      markNotificationAsRead (some "a") "n1" s1 =
        .ok ({ id := "n1", userId := "a", creatorId := "u", type := .FOLLOW, postId := none,
               commentId := none, read := true, createdAt := 2 }, s1) ∧
      s1.notifications.find? (fun m => m.id == "n1") =
        some { id := "n1", userId := "a", creatorId := "u", type := .FOLLOW, postId := none,
               commentId := none, read := true, createdAt := 2 } ∧
      ({ id := "n1", userId := "a", creatorId := "u", type := .FOLLOW, postId := none,
         commentId := none, read := true, createdAt := 2 } : Notification).read = true :=
  markNotificationAsRead_idempotent engagedStore "a" "n1"
    { id := "n1", userId := "a", creatorId := "u", type := .FOLLOW, postId := none,
      commentId := none, read := false, createdAt := 2 }
    rfl (by decide) rfl

/-- C10: the read predicates return a negative default instead of
failing: for an unauthenticated caller `hasUserLikedPost` returns
`false`, `isFollowing` returns `false` and `getUnreadNotificationCount`
returns `0`; and when the underlying store access fails they return the
same defaults for any caller rather than propagating the error. -/
theorem read_predicates_negative_defaults
    (s : Store) (pid tid m : String) (session : Option String) :
    hasUserLikedPost none pid s = false ∧
    isFollowing none tid s = false ∧
    getUnreadNotificationCount none s = 0 ∧
    (s.dbError = some m →
      hasUserLikedPost session pid s = false ∧
      isFollowing session tid s = false ∧
      getUnreadNotificationCount session s = 0) := by
  refine ⟨rfl, rfl, rfl, fun hdb => ⟨?_, ?_, ?_⟩⟩
  · cases session with
    | none => rfl
    | some uid => simp [hasUserLikedPost, Store.likeFindUnique, Store.run, hdb]
  · cases session with
    | none => rfl
    | some uid => simp [isFollowing, Store.followsFindUnique, Store.run, hdb]
  · cases session with
    | none => rfl
    | some uid =>
      simp [getUnreadNotificationCount, Store.notificationCountUnread, Store.run, hdb]

/-- Witness for C10 at `failingStore` with caller `"u"`. -/
theorem read_predicates_negative_defaults_witness :
    hasUserLikedPost none "p1" failingStore = false ∧
    isFollowing none "a" failingStore = false ∧
    getUnreadNotificationCount none failingStore = 0 ∧
    hasUserLikedPost (some "u") "p1" failingStore = false ∧
    isFollowing (some "u") "a" failingStore = false ∧
    getUnreadNotificationCount (some "u") failingStore = 0 :=
  ⟨(read_predicates_negative_defaults failingStore "p1" "a" "connection refused" (some "u")).1,
   (read_predicates_negative_defaults failingStore "p1" "a" "connection refused" (some "u")).2.1,
   (read_predicates_negative_defaults failingStore "p1" "a" "connection refused"
     (some "u")).2.2.1,
   (read_predicates_negative_defaults failingStore "p1" "a" "connection refused"
     (some "u")).2.2.2 rfl⟩
